import Mathlib

/-!
Shallow embedding of the YouTube comment-moderation pipeline
(`backend/src/youtube_guard`): data model (`models.py`), classifier client
(`services/ai_service.py`), record store (`services/firestore_service.py`),
batch pipeline (`routers/scheduler.py`) and the comment read/reply endpoints
(`routers/comments.py`). External effects (YouTube API, Vertex AI, Firestore
transport) are parameters of an environment record; the pipeline itself is a
pure state-passing function that also logs the side-effecting calls it issues
as an event list, so that ordering properties can be stated.
-/

namespace YTGuard

/-- `CommentCategory` from `models.py`. -/
inductive CommentCategory
  | positive
  | question
  | constructive
  | complaint
  | toxic
  deriving DecidableEq, Repr

/-- `ModerationStatus` from `models.py`. -/
inductive ModerationStatus
  | published
  | heldForReview
  | rejected
  deriving DecidableEq, Repr

/-- `CommentAnalysis` from `models.py`: the classifier verdict. -/
structure CommentAnalysis where
  toxicity_score : Int
  category : CommentCategory
  reason : String
  mild_text : Option String
  deriving DecidableEq, Repr

/-- `Comment` from `models.py`: the processed comment record persisted to the
record store.  Timestamps are modelled as integers. -/
structure Comment where
  id : String
  video_id : String
  author_name : String
  author_channel_id : String
  original_text : String
  mild_text : String
  category : CommentCategory
  toxicity_score : Int
  moderation_status : ModerationStatus
  published_at : Int
  analyzed_at : Int
  needs_reply : Bool
  deriving DecidableEq, Repr

/-- `CommentSummary` from `models.py`: the dashboard-safe view.  It carries
`mild_text` only; there is no `original_text` field. -/
structure CommentSummary where
  id : String
  video_id : String
  video_title : Option String
  author_name : String
  mild_text : String
  category : CommentCategory
  published_at : Int
  needs_reply : Bool
  deriving DecidableEq, Repr

/-- `ProcessingResult` from `models.py`. -/
structure ProcessingResult where
  processed_count : Nat
  hidden_count : Nat
  held_count : Nat
  errors : List String
  deriving DecidableEq, Repr

/-- The two moderation thresholds from `config.py` (`toxicity_threshold`
default 70, `hold_threshold` default 50). -/
structure Config where
  toxicity_threshold : Int
  hold_threshold : Int
  deriving DecidableEq, Repr

/-! ## Classifier client (`services/ai_service.py`)

The Vertex AI response is an arbitrary string; `analyze_comment` strips
markdown fences, runs `json.loads`, and reads four fields out of the
resulting dict.  We embed the response at the point after `json.loads`:
either the text was not valid JSON (`json.loads` raises `JSONDecodeError`),
or it parsed to a non-dict (so `result.get` raises `AttributeError`), or it
parsed to an object with the four fields each possibly absent. -/

/-- A JSON field value as consumed by `int(result.get("toxicity_score", 0))`:
absent (Python default 0), an integer, a string (Python `int(s)` parses a
decimal literal), or some other JSON value on which `int` raises. -/
inductive JsonField
  | absent
  | jint (n : Int)
  | jstr (s : String)
  | jother
  deriving DecidableEq, Repr

/-- The classifier response after `json.loads`. -/
inductive ClassifierResponse
  | malformed
  | nonObject
  | obj (toxicity_score : JsonField) (category : Option String)
      (reason : Option String) (mild_text : Option String)
  deriving DecidableEq, Repr

/-- Python `int(result.get("toxicity_score", 0))`: `none` means the call
raises (`ValueError`/`TypeError`). -/
def intOfField : JsonField → Option Int
  | JsonField.absent => some 0
  | JsonField.jint n => some n
  | JsonField.jstr s => s.toInt?
  | JsonField.jother => none

/-- The `category_map.get(..., CommentCategory.COMPLAINT)` lookup. -/
def categoryOfString (s : String) : CommentCategory :=
  if s = "positive" then CommentCategory.positive
  else if s = "question" then CommentCategory.question
  else if s = "constructive" then CommentCategory.constructive
  else if s = "complaint" then CommentCategory.complaint
  else if s = "toxic" then CommentCategory.toxic
  else CommentCategory.complaint

/-- The safe default verdict returned on a JSON parse error. -/
def parseErrorAnalysis (text : String) : CommentAnalysis :=
  { toxicity_score := 50
  , category := CommentCategory.complaint
  , reason := "解析エラー"
  , mild_text := some text }

/-- `AIService.analyze_comment` after the model responded, as a function of
the original comment text and the parsed response.  `Except.error` models a
propagated exception:
* not valid JSON: `json.JSONDecodeError` is caught and the safe default
  verdict is returned;
* valid JSON that is not an object: `result.get` raises `AttributeError`,
  which is re-raised by the generic handler;
* an object whose `toxicity_score` is neither numeric nor a numeric string:
  `int(...)` raises, which is re-raised by the generic handler;
* otherwise the verdict is built with the score clamped by
  `min(100, max(0, ...))`, unknown categories mapped to `complaint`, and
  `mild_text` defaulting to the original text when absent. -/
def analyze_comment (text : String) (resp : ClassifierResponse) :
    Except String CommentAnalysis :=
  match resp with
  | ClassifierResponse.malformed => Except.ok (parseErrorAnalysis text)
  | ClassifierResponse.nonObject =>
      Except.error "AttributeError: response is not a JSON object"
  | ClassifierResponse.obj ts cat rsn mt =>
      match intOfField ts with
      | none => Except.error "ValueError: invalid toxicity_score"
      | some n =>
          Except.ok
            { toxicity_score := min 100 (max 0 n)
            , category := categoryOfString (cat.getD "")
            , reason := rsn.getD ""
            , mild_text := some (mt.getD text) }

/-- `AIService.generate_reply_suggestion`: returns `none` for the toxic
category before any model call; otherwise returns the model's reply text, or
`none` if the call raised (the handler returns `None`). -/
def generate_reply_suggestion (category : CommentCategory)
    (modelReply : Except String String) : Option String :=
  if category = CommentCategory.toxic then none
  else
    match modelReply with
    | Except.ok s => some s
    | Except.error _ => none

/-! ## Record store (`services/firestore_service.py`)

The `comments` Firestore collection is a list of records keyed by
`Comment.id`; `doc_ref.set` is an upsert.  The daily statistics document is
reduced to the two counters the pipeline increments. -/

/-- The persistent state behind `FirestoreService`. -/
structure Store where
  comments : List Comment
  statsBlocked : Nat
  statsProcessed : Nat
  deriving DecidableEq, Repr

/-- Does the comments collection hold a document with this id? -/
def storeHas (comments : List Comment) (id : String) : Bool :=
  comments.any (fun c => c.id = id)

/-- `doc_ref.set` keyed by `comment.id`: overwrite the document when present,
create it otherwise. -/
def upsert (comments : List Comment) (c : Comment) : List Comment :=
  if storeHas comments c.id then
    comments.map (fun x => if x.id = c.id then c else x)
  else comments ++ [c]

/-- `FirestoreService.get_comment`: the document with the given id, if any. -/
def fs_get_comment (comments : List Comment) (id : String) : Option Comment :=
  comments.find? (fun c => c.id = id)

/-! ## Batch pipeline (`routers/scheduler.py`)

`process_comments` orchestrates the three services.  Each external call that
can raise is a parameter of `Env`; `Except.error` / `some e` is a raised
exception with message `e`.  The side-effecting calls the pipeline issues
are logged in order as `Event`s. -/

/-- A raw comment as returned by `YouTubeService.get_comment_threads`. -/
structure CommentData where
  id : String
  text : String
  author_name : String
  author_channel_id : String
  published_at : Int
  deriving DecidableEq, Repr

/-- A video as returned by `YouTubeService.get_my_videos`. -/
structure Video where
  video_id : String
  deriving DecidableEq, Repr

/-- Side-effecting calls issued by the pipeline, in program order. -/
inductive Event
  | setModeration (id : String) (status : ModerationStatus)
  | saveComment (c : Comment)
  | statsUpdate (blocked : Nat) (processed : Nat)
  deriving DecidableEq, Repr

/-- The pipeline's external world: each field models one fallible remote
call.  `existsFails`, `moderateFails`, `saveFails`, `statsFails` give the
exception the corresponding Firestore/YouTube call raises, if any. -/
structure Env where
  fetchVideos : Except String (List Video)
  fetchComments : String → Except String (List CommentData)
  generate : String → Except String ClassifierResponse
  existsFails : String → Option String
  moderateFails : String → Option String
  saveFails : String → Option String
  statsFails : Option String
  now : Int

/-- `AIService.analyze_comment` end to end: the model call may raise
(transport error, re-raised), otherwise the response is parsed as above. -/
def aiAnalyze (env : Env) (text : String) : Except String CommentAnalysis :=
  match env.generate text with
  | Except.error e => Except.error e
  | Except.ok resp => analyze_comment text resp

/-- The running state of one batch invocation. -/
structure PipeState where
  store : Store
  result : ProcessingResult
  events : List Event
  deriving Repr

/-- `FirestoreService.comment_exists`, as called at the top of the comment
loop; the Firestore read itself may raise. -/
def comment_exists (env : Env) (st : PipeState) (id : String) :
    Except String Bool :=
  match env.existsFails id with
  | some e => Except.error e
  | none => Except.ok (storeHas st.store.comments id)

/-- The threshold decision of `process_comments` (scheduler.py lines 61-67):
start from `PUBLISHED`, reject at or above `toxicity_threshold`, else hold at
or above `hold_threshold`. -/
def decideStatus (cfg : Config) (score : Int) : ModerationStatus :=
  if cfg.toxicity_threshold ≤ score then ModerationStatus.rejected
  else if cfg.hold_threshold ≤ score then ModerationStatus.heldForReview
  else ModerationStatus.published

/-- Python `analysis.mild_text or comment_data["text"]`: falls back to the
original text when `mild_text` is `None` or the empty string. -/
def orElseStr (m : Option String) (d : String) : String :=
  match m with
  | some s => if s = "" then d else s
  | none => d

/-- The `Comment(...)` record built at scheduler.py lines 77-93. -/
def recordOf (env : Env) (vid : String) (cd : CommentData)
    (analysis : CommentAnalysis) (status : ModerationStatus) : Comment :=
  { id := cd.id
  , video_id := vid
  , author_name := cd.author_name
  , author_channel_id := cd.author_channel_id
  , original_text := cd.text
  , mild_text := orElseStr analysis.mild_text cd.text
  , category := analysis.category
  , toxicity_score := analysis.toxicity_score
  , moderation_status := status
  , published_at := cd.published_at
  , analyzed_at := env.now
  , needs_reply := decide (analysis.category = CommentCategory.question ∨
      analysis.category = CommentCategory.constructive) }

/-- The body of the per-comment `try` block (scheduler.py lines 56-97):
classify, decide and count, moderate when needed, build and save the record.
Returns the state reached together with the exception that escaped the body,
if any; state mutations made before the exception point are kept, exactly as
in the source where `result` is mutated in place. -/
def commentBody (cfg : Config) (env : Env) (vid : String) (cd : CommentData)
    (st : PipeState) : PipeState × Option String :=
  match aiAnalyze env cd.text with
  | Except.error e => (st, some e)
  | Except.ok analysis =>
      let status := decideStatus cfg analysis.toxicity_score
      let st1 : PipeState :=
        { st with result :=
            { st.result with
                hidden_count := st.result.hidden_count +
                  (if status = ModerationStatus.rejected then 1 else 0)
              , held_count := st.result.held_count +
                  (if status = ModerationStatus.heldForReview then 1 else 0) } }
      let afterMod : PipeState × Option String :=
        if status = ModerationStatus.published then (st1, none)
        else
          ({ st1 with events := st1.events ++ [Event.setModeration cd.id status] },
           env.moderateFails cd.id)
      match afterMod with
      | (st2, some e) => (st2, some e)
      | (st2, none) =>
          let c := recordOf env vid cd analysis status
          match env.saveFails cd.id with
          | some e => (st2, some e)
          | none =>
              ({ st2 with
                  store := { st2.store with comments := upsert st2.store.comments c }
                , events := st2.events ++ [Event.saveComment c]
                , result := { st2.result with
                    processed_count := st2.result.processed_count + 1 } },
               none)

/-- Append the per-comment error string of scheduler.py line 100. -/
def appendCommentError (st : PipeState) (id e : String) : PipeState :=
  { st with result := { st.result with
      errors := st.result.errors ++ ["Error processing comment " ++ id ++ ": " ++ e] } }

/-- One iteration of the comment loop (scheduler.py lines 49-102): the
existence check is outside the `try`, so its exception propagates (second
component `some e`); an exception inside the body is caught and recorded. -/
def processComment (cfg : Config) (env : Env) (vid : String) (cd : CommentData)
    (st : PipeState) : PipeState × Option String :=
  match comment_exists env st cd.id with
  | Except.error e => (st, some e)
  | Except.ok true => (st, none)
  | Except.ok false =>
      match commentBody cfg env vid cd st with
      | (st2, none) => (st2, none)
      | (st2, some e) => (appendCommentError st2 cd.id e, none)

/-- The comment loop over one video's threads; stops on a propagating
exception. -/
def processCommentList (cfg : Config) (env : Env) (vid : String) :
    List CommentData → PipeState → PipeState × Option String
  | [], st => (st, none)
  | cd :: rest, st =>
      match processComment cfg env vid cd st with
      | (st2, some e) => (st2, some e)
      | (st2, none) => processCommentList cfg env vid rest st2

/-- One iteration of the video loop: fetch threads (may raise), then run the
comment loop. -/
def processVideo (cfg : Config) (env : Env) (v : Video) (st : PipeState) :
    PipeState × Option String :=
  match env.fetchComments v.video_id with
  | Except.error e => (st, some e)
  | Except.ok cds => processCommentList cfg env v.video_id cds st

/-- The video loop. -/
def processVideoList (cfg : Config) (env : Env) :
    List Video → PipeState → PipeState × Option String
  | [], st => (st, none)
  | v :: vs, st =>
      match processVideo cfg env v st with
      | (st2, some e) => (st2, some e)
      | (st2, none) => processVideoList cfg env vs st2

/-- The initial state of a batch:
`ProcessingResult(processed_count=0, hidden_count=0, held_count=0)`. -/
def initState (s : Store) : PipeState :=
  { store := s
  , result := { processed_count := 0, hidden_count := 0, held_count := 0, errors := [] }
  , events := [] }

/-- The body of the outer `try` (scheduler.py lines 39-115): fetch videos,
run the video loop, then `update_statistics` with
`blocked_delta = hidden + held` and `processed_delta = processed`. -/
def pipelineBody (cfg : Config) (env : Env) (st : PipeState) :
    PipeState × Option String :=
  match env.fetchVideos with
  | Except.error e => (st, some e)
  | Except.ok videos =>
      match processVideoList cfg env videos st with
      | (st2, some e) => (st2, some e)
      | (st2, none) =>
          match env.statsFails with
          | some e => (st2, some e)
          | none =>
              ({ st2 with
                  store := { st2.store with
                      statsBlocked := st2.store.statsBlocked +
                        (st2.result.hidden_count + st2.result.held_count)
                    , statsProcessed := st2.store.statsProcessed +
                        st2.result.processed_count }
                , events := st2.events ++
                    [Event.statsUpdate
                      (st2.result.hidden_count + st2.result.held_count)
                      st2.result.processed_count] },
               none)

/-- `process_comments` (scheduler.py lines 23-121): the outer `except`
appends one top-level error string and returns the result; the entry point
never raises. -/
def process_comments (cfg : Config) (env : Env) (s : Store) : PipeState :=
  match pipelineBody cfg env (initState s) with
  | (st, none) => st
  | (st, some e) =>
      { st with result := { st.result with
          errors := st.result.errors ++ ["Processing job failed: " ++ e] } }

/-! ## Category reads (`firestore_service.py` / `routers/comments.py`) -/

/-- The `CommentSummary(...)` built at firestore_service.py lines 124-132:
only the mild text is exposed. -/
def summarize (c : Comment) : CommentSummary :=
  { id := c.id
  , video_id := c.video_id
  , video_title := none
  , author_name := c.author_name
  , mild_text := c.mild_text
  , category := c.category
  , published_at := c.published_at
  , needs_reply := c.needs_reply }

/-- Insert into a list kept in descending `published_at` order. -/
def insertByPublishedDesc (c : Comment) : List Comment → List Comment
  | [] => [c]
  | x :: xs =>
      if c.published_at ≤ x.published_at then x :: insertByPublishedDesc c xs
      else c :: x :: xs

/-- The `order_by("published_at", DESCENDING)` stage. -/
def sortByPublishedDesc : List Comment → List Comment
  | [] => []
  | c :: cs => insertByPublishedDesc c (sortByPublishedDesc cs)

/-- `FirestoreService.get_comments_by_category`: filter by category, filter
`toxicity_score < toxicity_threshold` when `exclude_toxic`, order by
`published_at` descending, take `limit`, and map to summaries. -/
def fs_get_comments_by_category (cfg : Config) (comments : List Comment)
    (category : CommentCategory) (limit : Nat) (exclude_toxic : Bool) :
    List CommentSummary :=
  let q1 := comments.filter (fun c => c.category = category)
  let q2 :=
    if exclude_toxic then
      q1.filter (fun c => c.toxicity_score < cfg.toxicity_threshold)
    else q1
  ((sortByPublishedDesc q2).take limit).map summarize

/-- `GET /category/{category}` (comments.py lines 50-72): rejects the toxic
category with HTTP 400 before touching the store; otherwise reads with the
default `exclude_toxic=True`. -/
def get_comments_by_category_endpoint (cfg : Config) (comments : List Comment)
    (category : CommentCategory) (limit : Nat) :
    Except (Nat × String) (List CommentSummary) :=
  if category = CommentCategory.toxic then
    Except.error (400, "Toxic comments are not viewable. Check stats for count only.")
  else
    Except.ok (fs_get_comments_by_category cfg comments category limit true)

/-! ## Reply endpoint (`routers/comments.py` lines 86-125) -/

/-- Side-effecting calls issued by the reply endpoint, in program order. -/
inductive ReplyEvent
  | postReply (parent_id : String) (text : String)
  | markReplied (id : String)
  deriving DecidableEq, Repr

/-- The reply endpoint's external world. -/
structure ReplyEnv where
  comments : List Comment
  credentials : Option String
  postReplyResult : Except String String
  markRepliedFails : Option String

/-- `POST /{comment_id}/reply`: verify existence (404), check credentials
(401), post the reply via YouTube, mark replied in the store; any non-HTTP
exception becomes a 500.  Returns the HTTP outcome and the calls issued. -/
def reply_to_comment (env : ReplyEnv) (comment_id text : String) :
    Except (Nat × String) String × List ReplyEvent :=
  match fs_get_comment env.comments comment_id with
  | none => (Except.error (404, "Comment not found"), [])
  | some _ =>
      match env.credentials with
      | none => (Except.error (401, "User not authenticated"), [])
      | some _ =>
          match env.postReplyResult with
          | Except.error _ =>
              (Except.error (500, "Failed to post reply"),
               [ReplyEvent.postReply comment_id text])
          | Except.ok rid =>
              match env.markRepliedFails with
              | some _ =>
                  (Except.error (500, "Failed to post reply"),
                   [ReplyEvent.postReply comment_id text])
              | none =>
                  (Except.ok rid,
                   [ReplyEvent.postReply comment_id text,
                    ReplyEvent.markReplied comment_id])

/-! ## Concrete environments used to instantiate the theorems -/

/-- A one-video, one-comment environment in which every remote call
succeeds and the classifier scores the comment 85/toxic. -/
def okEnv : Env :=
  { fetchVideos := Except.ok [{ video_id := "v1" }]
  , fetchComments := fun _ => Except.ok
      [{ id := "cA", text := "tA", author_name := "a"
       , author_channel_id := "ca", published_at := 1 }]
  , generate := fun _ => Except.ok
      (ClassifierResponse.obj (JsonField.jint 85) (some "toxic") (some "r") (some "m"))
  , existsFails := fun _ => none
  , moderateFails := fun _ => none
  , saveFails := fun _ => none
  , statsFails := none
  , now := 0 }

/-- The single raw comment served by `okEnv`. -/
def sampleCd : CommentData :=
  { id := "cA", text := "tA", author_name := "a"
  , author_channel_id := "ca", published_at := 1 }

/-- The default configuration from `config.py`. -/
def defaultCfg : Config := { toxicity_threshold := 70, hold_threshold := 50 }

/-! ## Helper lemmas -/

theorem decideStatus_rejected (cfg : Config) (s : Int)
    (h : cfg.toxicity_threshold ≤ s) :
    decideStatus cfg s = ModerationStatus.rejected := by
  unfold decideStatus
  rw [if_pos h]

theorem decideStatus_held (cfg : Config) (s : Int)
    (h1 : cfg.hold_threshold ≤ s) (h2 : s < cfg.toxicity_threshold) :
    decideStatus cfg s = ModerationStatus.heldForReview := by
  unfold decideStatus
  rw [if_neg (by omega), if_pos h1]

theorem decideStatus_published (cfg : Config) (s : Int)
    (hinv : cfg.hold_threshold ≤ cfg.toxicity_threshold)
    (h : s < cfg.hold_threshold) :
    decideStatus cfg s = ModerationStatus.published := by
  unfold decideStatus
  rw [if_neg (by omega), if_neg (by omega)]

/-- Full characterisation of the per-comment `try` body when the classifier,
the moderation call and the save all succeed. -/
theorem commentBody_ok (cfg : Config) (env : Env) (vid : String)
    (cd : CommentData) (st : PipeState) (a : CommentAnalysis)
    (ha : aiAnalyze env cd.text = Except.ok a)
    (hmod : env.moderateFails cd.id = none)
    (hsave : env.saveFails cd.id = none) :
    commentBody cfg env vid cd st =
      ({ store := { st.store with
            comments := upsert st.store.comments
              (recordOf env vid cd a (decideStatus cfg a.toxicity_score)) }
        , result :=
          { processed_count := st.result.processed_count + 1
          , hidden_count := st.result.hidden_count +
              (if decideStatus cfg a.toxicity_score = ModerationStatus.rejected
               then 1 else 0)
          , held_count := st.result.held_count +
              (if decideStatus cfg a.toxicity_score = ModerationStatus.heldForReview
               then 1 else 0)
          , errors := st.result.errors }
        , events := st.events ++
            (if decideStatus cfg a.toxicity_score = ModerationStatus.published then
              [Event.saveComment (recordOf env vid cd a (decideStatus cfg a.toxicity_score))]
            else
              [Event.setModeration cd.id (decideStatus cfg a.toxicity_score),
               Event.saveComment (recordOf env vid cd a (decideStatus cfg a.toxicity_score))]) },
       none) := by
  unfold commentBody
  rw [ha]
  by_cases hp : decideStatus cfg a.toxicity_score = ModerationStatus.published
  · simp [hp, hsave]
  · simp [hp, hmod, hsave, List.append_assoc]

/-! ## Claim theorems -/

/-- C1: for every processed comment with verdict toxicity score `s`: if
`s ≥ toxicity_threshold` the decided status is rejected and the hidden count
is incremented; else if `s ≥ hold_threshold` the status is held-for-review
and the held count is incremented; else the status is published and neither
count moves.  The persisted record carries the decided status.  Both band
boundaries are inclusive on the lower bound, and under the startup invariant
`hold_threshold ≤ toxicity_threshold` the three bands are exhaustive and
pairwise disjoint. -/
theorem c1_threshold_decision (cfg : Config) (env : Env) (vid : String)
    (cd : CommentData) (st : PipeState) (a : CommentAnalysis)
    (hinv : cfg.hold_threshold ≤ cfg.toxicity_threshold)
    (ha : aiAnalyze env cd.text = Except.ok a)
    (hmod : env.moderateFails cd.id = none)
    (hsave : env.saveFails cd.id = none) :
    (cfg.toxicity_threshold ≤ a.toxicity_score →
        decideStatus cfg a.toxicity_score = ModerationStatus.rejected ∧
        (commentBody cfg env vid cd st).1.result.hidden_count
            = st.result.hidden_count + 1 ∧
        (commentBody cfg env vid cd st).1.result.held_count
            = st.result.held_count) ∧
    (cfg.hold_threshold ≤ a.toxicity_score ∧
        a.toxicity_score < cfg.toxicity_threshold →
        decideStatus cfg a.toxicity_score = ModerationStatus.heldForReview ∧
        (commentBody cfg env vid cd st).1.result.held_count
            = st.result.held_count + 1 ∧
        (commentBody cfg env vid cd st).1.result.hidden_count
            = st.result.hidden_count) ∧
    (a.toxicity_score < cfg.hold_threshold →
        decideStatus cfg a.toxicity_score = ModerationStatus.published ∧
        (commentBody cfg env vid cd st).1.result.hidden_count
            = st.result.hidden_count ∧
        (commentBody cfg env vid cd st).1.result.held_count
            = st.result.held_count) ∧
    ((commentBody cfg env vid cd st).1.store.comments
        = upsert st.store.comments
            (recordOf env vid cd a (decideStatus cfg a.toxicity_score)) ∧
     (recordOf env vid cd a (decideStatus cfg a.toxicity_score)).moderation_status
        = decideStatus cfg a.toxicity_score) ∧
    (cfg.toxicity_threshold ≤ a.toxicity_score ∨
     (cfg.hold_threshold ≤ a.toxicity_score ∧
        a.toxicity_score < cfg.toxicity_threshold) ∨
     a.toxicity_score < cfg.hold_threshold) ∧
    ¬(cfg.toxicity_threshold ≤ a.toxicity_score ∧
        a.toxicity_score < cfg.toxicity_threshold) ∧
    ¬(cfg.toxicity_threshold ≤ a.toxicity_score ∧
        a.toxicity_score < cfg.hold_threshold) ∧
    ¬(cfg.hold_threshold ≤ a.toxicity_score ∧
        a.toxicity_score < cfg.hold_threshold) := by
  rw [commentBody_ok cfg env vid cd st a ha hmod hsave]
  refine ⟨?_, ?_, ?_, ⟨rfl, rfl⟩, by omega, by omega, by omega, by omega⟩
  · intro h
    rw [decideStatus_rejected cfg _ h]
    simp
  · intro h
    rw [decideStatus_held cfg _ h.1 h.2]
    simp
  · intro h
    rw [decideStatus_published cfg _ hinv h]
    simp

/-- Witness for C1 at the default thresholds and a comment scored 85: the
decision is `rejected` and the hidden count goes from 0 to 1. -/
theorem c1_threshold_decision_witness :
    decideStatus defaultCfg (85 : Int) = ModerationStatus.rejected ∧
    (commentBody defaultCfg okEnv "v1" sampleCd
        (initState { comments := [], statsBlocked := 0, statsProcessed := 0 })).1.result.hidden_count
      = (initState { comments := [], statsBlocked := 0, statsProcessed := 0 }).result.hidden_count + 1 ∧
    (commentBody defaultCfg okEnv "v1" sampleCd
        (initState { comments := [], statsBlocked := 0, statsProcessed := 0 })).1.result.held_count
      = (initState { comments := [], statsBlocked := 0, statsProcessed := 0 }).result.held_count :=
  (c1_threshold_decision defaultCfg okEnv "v1" sampleCd
      (initState { comments := [], statsBlocked := 0, statsProcessed := 0 })
      { toxicity_score := 85, category := CommentCategory.toxic
      , reason := "r", mild_text := some "m" }
      (by decide) rfl rfl rfl).1 (by decide)

/-- C2 counterexample: a well-formed JSON object whose `toxicity_score`
field is not numeric (e.g. JSON `null`, `JsonField.jother`) makes
`int(...)` raise; the exception is re-raised by the generic handler, so
`analyze_comment` returns no verdict at all — neither the safe default nor
a clamped score. -/
theorem c2_counterexample :
    analyze_comment "hello"
        (ClassifierResponse.obj JsonField.jother none none none)
      = Except.error "ValueError: invalid toxicity_score" ∧
    (∀ a : CommentAnalysis,
        analyze_comment "hello"
            (ClassifierResponse.obj JsonField.jother none none none)
          ≠ Except.ok a) := by
  constructor
  · rfl
  · intro a h
    exact absurd h (by simp [analyze_comment, intOfField])

/-- C2 (amended): on a response that fails JSON parsing, `analyze_comment`
returns (does not raise) the safe default verdict — score 50, category
complaint, the parse-error sentinel reason, and the original text as mild
text; and every verdict `analyze_comment` does return has its
`toxicity_score` within `[0, 100]` (out-of-range numeric scores are
clamped).  A well-formed JSON response whose `toxicity_score` is non-numeric
instead propagates the exception and yields no verdict. -/
theorem c2_parse_failure_safe_default (text : String) (resp : ClassifierResponse) :
    (analyze_comment text ClassifierResponse.malformed
        = Except.ok
            { toxicity_score := 50
            , category := CommentCategory.complaint
            , reason := "解析エラー"
            , mild_text := some text }) ∧
    (∀ a : CommentAnalysis, analyze_comment text resp = Except.ok a →
        0 ≤ a.toxicity_score ∧ a.toxicity_score ≤ 100) := by
  constructor
  · rfl
  · intro a h
    cases resp with
    | malformed =>
        simp [analyze_comment, parseErrorAnalysis] at h
        rw [← h]
        exact ⟨by norm_num, by norm_num⟩
    | nonObject => simp [analyze_comment] at h
    | obj ts cat rsn mt =>
        cases hts : intOfField ts with
        | none => simp [analyze_comment, hts] at h
        | some n =>
            simp [analyze_comment, hts] at h
            rw [← h]
            constructor
            · exact le_min (by norm_num) (le_max_left 0 n)
            · exact min_le_left 100 (max 0 n)

/-- The verdict `analyze_comment` returns for an object response whose
score is 250: clamped to 100. -/
def analyzedAt250 : CommentAnalysis :=
  { toxicity_score := 100
  , category := CommentCategory.complaint
  , reason := ""
  , mild_text := some "hi" }

/-- Witness for C2 (amended) at a score of 250: the returned verdict is
clamped to 100, inside `[0, 100]`. -/
theorem c2_parse_failure_safe_default_witness :
    (0 : Int) ≤ (analyzedAt250).toxicity_score ∧ (analyzedAt250).toxicity_score ≤ 100 :=
  (c2_parse_failure_safe_default "hi"
      (ClassifierResponse.obj (JsonField.jint 250) none none none)).2
    analyzedAt250 rfl

/-- When the existence check does not raise, nothing escapes one iteration
of the comment loop: the per-comment `try` swallows every body exception. -/
theorem processComment_no_abort (cfg : Config) (env : Env) (vid : String)
    (cd : CommentData) (st : PipeState)
    (hex : env.existsFails cd.id = none) :
    (processComment cfg env vid cd st).2 = none := by
  unfold processComment comment_exists
  rw [hex]
  cases hs : storeHas st.store.comments cd.id
  · cases hb : commentBody cfg env vid cd st with
    | mk st2 err => cases err <;> simp
  · simp

/-- When no existence check raises, the whole comment loop runs to the end
without a propagating exception. -/
theorem processCommentList_no_abort (cfg : Config) (env : Env) (vid : String)
    (cds : List CommentData) (st : PipeState)
    (hex : ∀ i, env.existsFails i = none) :
    (processCommentList cfg env vid cds st).2 = none := by
  induction cds generalizing st with
  | nil => rfl
  | cons cd rest ih =>
      have h2 := processComment_no_abort cfg env vid cd st (hex cd.id)
      unfold processCommentList
      cases hp : processComment cfg env vid cd st with
      | mk st2 err =>
          rw [hp] at h2
          simp at h2
          subst h2
          exact ih st2

/-- C3: if a comment's body (classification, moderation call, record
construction or persistence) raises, a descriptive error string — built from
its comment id — is appended to the batch's error list, the state mutations
made before the failure are kept, and the loop proceeds to process the rest
of the batch; when no existence check raises, no exception escapes the
comment loop at all. -/
theorem c3_per_comment_isolation (cfg : Config) (env : Env) (vid : String)
    (cd : CommentData) (rest : List CommentData) (st : PipeState) (e : String)
    (hex : env.existsFails cd.id = none)
    (hnew : storeHas st.store.comments cd.id = false)
    (hfail : (commentBody cfg env vid cd st).2 = some e) :
    processCommentList cfg env vid (cd :: rest) st
      = processCommentList cfg env vid rest
          (appendCommentError (commentBody cfg env vid cd st).1 cd.id e) ∧
    (appendCommentError (commentBody cfg env vid cd st).1 cd.id e).result.errors
      = (commentBody cfg env vid cd st).1.result.errors ++
          ["Error processing comment " ++ cd.id ++ ": " ++ e] ∧
    ((∀ i, env.existsFails i = none) →
        (processCommentList cfg env vid (cd :: rest) st).2 = none) := by
  refine ⟨?_, rfl, fun hall => processCommentList_no_abort cfg env vid _ st hall⟩
  have hpc : processComment cfg env vid cd st
      = (appendCommentError (commentBody cfg env vid cd st).1 cd.id e, none) := by
    unfold processComment comment_exists
    rw [hex, hnew]
    cases hb : commentBody cfg env vid cd st with
    | mk st2 err =>
        rw [hb] at hfail
        simp at hfail
        subst hfail
        simp
  conv_lhs => unfold processCommentList
  rw [hpc]

/-- The environment of `okEnv` with a classifier that answers with valid
JSON that is not an object, so that the comment body raises. -/
def bodyFailEnv : Env :=
  { okEnv with generate := fun _ => Except.ok ClassifierResponse.nonObject }

/-- Witness for C3: with a classifier answering a non-object, the singleton
batch appends exactly one error string and the loop does not abort. -/
theorem c3_per_comment_isolation_witness :
    processCommentList defaultCfg bodyFailEnv "v1" [sampleCd]
        (initState { comments := [], statsBlocked := 0, statsProcessed := 0 })
      = processCommentList defaultCfg bodyFailEnv "v1" []
          (appendCommentError
            (commentBody defaultCfg bodyFailEnv "v1" sampleCd
              (initState { comments := [], statsBlocked := 0, statsProcessed := 0 })).1
            sampleCd.id "AttributeError: response is not a JSON object") ∧
    (appendCommentError
        (commentBody defaultCfg bodyFailEnv "v1" sampleCd
          (initState { comments := [], statsBlocked := 0, statsProcessed := 0 })).1
        sampleCd.id "AttributeError: response is not a JSON object").result.errors
      = (commentBody defaultCfg bodyFailEnv "v1" sampleCd
          (initState { comments := [], statsBlocked := 0, statsProcessed := 0 })).1.result.errors ++
          ["Error processing comment " ++ sampleCd.id ++ ": " ++
            "AttributeError: response is not a JSON object"] ∧
    ((∀ i, bodyFailEnv.existsFails i = none) →
        (processCommentList defaultCfg bodyFailEnv "v1" [sampleCd]
            (initState { comments := [], statsBlocked := 0, statsProcessed := 0 })).2 = none) :=
  c3_per_comment_isolation defaultCfg bodyFailEnv "v1" sampleCd []
    (initState { comments := [], statsBlocked := 0, statsProcessed := 0 })
    "AttributeError: response is not a JSON object" rfl rfl rfl

/-- C4: the batch entry point never propagates an exception.  If the video
fetch raises, or the comment-thread fetch for the first video raises, the
batch returns immediately with zero counts and exactly one top-level error
string; in general whenever the `try` body raises, the caller receives the
accumulated counts and errors plus one top-level error string; and when the
body succeeds, its result is returned unchanged — failure is always data in
`errors`, never an exception. -/
theorem c4_entry_point_never_raises (cfg : Config) (env : Env) (s : Store)
    (e : String) (v : Video) (vs : List Video) :
    (env.fetchVideos = Except.error e →
        process_comments cfg env s =
          { store := s
          , result := { processed_count := 0, hidden_count := 0, held_count := 0
                      , errors := ["Processing job failed: " ++ e] }
          , events := [] }) ∧
    (env.fetchVideos = Except.ok (v :: vs) →
      env.fetchComments v.video_id = Except.error e →
        process_comments cfg env s =
          { store := s
          , result := { processed_count := 0, hidden_count := 0, held_count := 0
                      , errors := ["Processing job failed: " ++ e] }
          , events := [] }) ∧
    (∀ st2 : PipeState,
      pipelineBody cfg env (initState s) = (st2, some e) →
        process_comments cfg env s =
          { st2 with result := { st2.result with
              errors := st2.result.errors ++ ["Processing job failed: " ++ e] } }) ∧
    (∀ st2 : PipeState,
      pipelineBody cfg env (initState s) = (st2, none) →
        process_comments cfg env s = st2) := by
  refine ⟨?_, ?_, ?_, ?_⟩
  · intro hv
    unfold process_comments pipelineBody
    rw [hv]
    rfl
  · intro hv hc
    unfold process_comments pipelineBody processVideoList processVideo
    simp [hv, hc]
    exact ⟨rfl, ⟨rfl, rfl, rfl, rfl⟩, rfl⟩
  · intro st2 hb
    unfold process_comments
    rw [hb]
  · intro st2 hb
    unfold process_comments
    rw [hb]

/-- The environment of `okEnv` with an unreachable video listing. -/
def fetchFailEnv : Env :=
  { okEnv with fetchVideos := Except.error "videos unavailable" }

/-- Witness for C4: a failing video fetch yields the zero-count result with
the single top-level error string. -/
theorem c4_entry_point_never_raises_witness :
    process_comments defaultCfg fetchFailEnv
        { comments := [], statsBlocked := 0, statsProcessed := 0 } =
      { store := { comments := [], statsBlocked := 0, statsProcessed := 0 }
      , result := { processed_count := 0, hidden_count := 0, held_count := 0
                  , errors := ["Processing job failed: " ++ "videos unavailable"] }
      , events := [] } :=
  (c4_entry_point_never_raises defaultCfg fetchFailEnv
      { comments := [], statsBlocked := 0, statsProcessed := 0 }
      "videos unavailable" { video_id := "v1" } []).1 rfl

/-- The empty record store. -/
def emptyStore : Store := { comments := [], statsBlocked := 0, statsProcessed := 0 }

/-- Characterisation of the comment body when the decided status is
published: no moderation call is issued, only the save. -/
theorem commentBody_ok_published (cfg : Config) (env : Env) (vid : String)
    (cd : CommentData) (st : PipeState) (a : CommentAnalysis)
    (ha : aiAnalyze env cd.text = Except.ok a)
    (hp : decideStatus cfg a.toxicity_score = ModerationStatus.published)
    (hsave : env.saveFails cd.id = none) :
    commentBody cfg env vid cd st =
      ({ store := { st.store with
            comments := upsert st.store.comments
              (recordOf env vid cd a (decideStatus cfg a.toxicity_score)) }
        , result :=
          { processed_count := st.result.processed_count + 1
          , hidden_count := st.result.hidden_count
          , held_count := st.result.held_count
          , errors := st.result.errors }
        , events := st.events ++
            [Event.saveComment (recordOf env vid cd a (decideStatus cfg a.toxicity_score))] },
       none) := by
  unfold commentBody
  rw [ha]
  simp [hp, hsave]

/-- When the moderation call raises, the body raises. -/
theorem commentBody_fail_moderate (cfg : Config) (env : Env) (vid : String)
    (cd : CommentData) (st : PipeState) (a : CommentAnalysis) (e : String)
    (ha : aiAnalyze env cd.text = Except.ok a)
    (hp : decideStatus cfg a.toxicity_score ≠ ModerationStatus.published)
    (hm : env.moderateFails cd.id = some e) :
    (commentBody cfg env vid cd st).2 = some e := by
  unfold commentBody
  rw [ha]
  simp [hp, hm]

/-- When the save raises on a published comment, the body raises. -/
theorem commentBody_fail_save_published (cfg : Config) (env : Env) (vid : String)
    (cd : CommentData) (st : PipeState) (a : CommentAnalysis) (e : String)
    (ha : aiAnalyze env cd.text = Except.ok a)
    (hp : decideStatus cfg a.toxicity_score = ModerationStatus.published)
    (hs : env.saveFails cd.id = some e) :
    (commentBody cfg env vid cd st).2 = some e := by
  unfold commentBody
  rw [ha]
  simp [hp, hs]

/-- When the save raises on a moderated comment, the body raises. -/
theorem commentBody_fail_save_unpub (cfg : Config) (env : Env) (vid : String)
    (cd : CommentData) (st : PipeState) (a : CommentAnalysis) (e : String)
    (ha : aiAnalyze env cd.text = Except.ok a)
    (hp : decideStatus cfg a.toxicity_score ≠ ModerationStatus.published)
    (hm : env.moderateFails cd.id = none)
    (hs : env.saveFails cd.id = some e) :
    (commentBody cfg env vid cd st).2 = some e := by
  unfold commentBody
  rw [ha]
  simp [hp, hm, hs]

/-- C5: for every comment whose body completes (the comment is recorded),
there is a persisted record `c` for the comment's id such that the Sink's
`set_moderation_status` is invoked exactly when the decided status is not
published — zero calls for a published comment, exactly one call otherwise —
and, when invoked, the call is logged immediately before the save of the
record. -/
theorem c5_moderation_before_save (cfg : Config) (env : Env) (vid : String)
    (cd : CommentData) (st st2 : PipeState)
    (hok : commentBody cfg env vid cd st = (st2, none)) :
    ∃ c : Comment, c.id = cd.id ∧
      (c.moderation_status = ModerationStatus.published →
          st2.events = st.events ++ [Event.saveComment c]) ∧
      (c.moderation_status ≠ ModerationStatus.published →
          st2.events = st.events ++
            [Event.setModeration cd.id c.moderation_status,
             Event.saveComment c]) := by
  cases haa : aiAnalyze env cd.text with
  | error e =>
      have h2 : commentBody cfg env vid cd st = (st, some e) := by
        unfold commentBody
        rw [haa]
      rw [hok] at h2
      simp at h2
  | ok a =>
      by_cases hp : decideStatus cfg a.toxicity_score = ModerationStatus.published
      · cases hsv : env.saveFails cd.id with
        | some e =>
            have h2 := commentBody_fail_save_published cfg env vid cd st a e haa hp hsv
            rw [hok] at h2
            simp at h2
        | none =>
            have h2 := commentBody_ok_published cfg env vid cd st a haa hp hsv
            rw [hok] at h2
            injection h2 with h2a _
            subst h2a
            refine ⟨recordOf env vid cd a (decideStatus cfg a.toxicity_score), rfl,
              fun _ => rfl, fun hne => absurd ?_ hne⟩
            exact hp
      · cases hm : env.moderateFails cd.id with
        | some e =>
            have h2 := commentBody_fail_moderate cfg env vid cd st a e haa hp hm
            rw [hok] at h2
            simp at h2
        | none =>
            cases hsv : env.saveFails cd.id with
            | some e =>
                have h2 := commentBody_fail_save_unpub cfg env vid cd st a e haa hp hm hsv
                rw [hok] at h2
                simp at h2
            | none =>
                have h2 := commentBody_ok cfg env vid cd st a haa hm hsv
                rw [hok] at h2
                injection h2 with h2a _
                subst h2a
                refine ⟨recordOf env vid cd a (decideStatus cfg a.toxicity_score), rfl,
                  fun hpub => absurd hpub hp, fun _ => ?_⟩
                show st.events ++
                    (if decideStatus cfg a.toxicity_score = ModerationStatus.published
                     then _ else _) = _
                rw [if_neg hp]
                rfl

/-- Witness for C5: in the all-success environment the recorded comment's
events are as characterised. -/
theorem c5_moderation_before_save_witness :
    ∃ c : Comment, c.id = sampleCd.id ∧
      (c.moderation_status = ModerationStatus.published →
          (commentBody defaultCfg okEnv "v1" sampleCd (initState emptyStore)).1.events
            = (initState emptyStore).events ++ [Event.saveComment c]) ∧
      (c.moderation_status ≠ ModerationStatus.published →
          (commentBody defaultCfg okEnv "v1" sampleCd (initState emptyStore)).1.events
            = (initState emptyStore).events ++
                [Event.setModeration sampleCd.id c.moderation_status,
                 Event.saveComment c]) :=
  c5_moderation_before_save defaultCfg okEnv "v1" sampleCd (initState emptyStore) _ rfl

/-- The document ids of the comments collection. -/
def idsOf (l : List Comment) : List String := l.map (fun c => c.id)

theorem storeHas_iff_mem (l : List Comment) (i : String) :
    storeHas l i = true ↔ i ∈ idsOf l := by
  simp [storeHas, idsOf]

theorem idsOf_upsert (l : List Comment) (c : Comment) :
    idsOf (upsert l c) =
      if storeHas l c.id then idsOf l else idsOf l ++ [c.id] := by
  unfold upsert
  by_cases h : storeHas l c.id = true
  · rw [if_pos h, if_pos h]
    unfold idsOf
    rw [List.map_map]
    refine List.map_congr_left ?_
    intro x _
    by_cases hx : x.id = c.id
    · simp [hx]
    · simp [hx]
  · rw [if_neg h, if_neg h]
    simp [idsOf]

/-- How the comments collection can change across a pipeline step: document
ids stay unique and existing ids are never dropped. -/
def StoreEvolves (l l2 : List Comment) : Prop :=
  ((idsOf l).Nodup → (idsOf l2).Nodup) ∧ (∀ i, i ∈ idsOf l → i ∈ idsOf l2)

theorem storeEvolves_refl (l : List Comment) : StoreEvolves l l :=
  ⟨id, fun _ h => h⟩

theorem storeEvolves_trans {a b c : List Comment}
    (h1 : StoreEvolves a b) (h2 : StoreEvolves b c) : StoreEvolves a c :=
  ⟨fun h => h2.1 (h1.1 h), fun i hi => h2.2 i (h1.2 i hi)⟩

theorem storeEvolves_upsert (l : List Comment) (c : Comment) :
    StoreEvolves l (upsert l c) := by
  constructor
  · intro hnd
    rw [idsOf_upsert]
    by_cases h : storeHas l c.id = true
    · rw [if_pos h]
      exact hnd
    · rw [if_neg h]
      have hnm : c.id ∉ idsOf l := fun hm => h ((storeHas_iff_mem l c.id).mpr hm)
      simp [List.nodup_append, hnd, hnm]
  · intro i hi
    rw [idsOf_upsert]
    by_cases h : storeHas l c.id = true
    · rw [if_pos h]
      exact hi
    · rw [if_neg h]
      exact List.mem_append_left _ hi

theorem commentBody_evolves (cfg : Config) (env : Env) (vid : String)
    (cd : CommentData) (st : PipeState) :
    StoreEvolves st.store.comments (commentBody cfg env vid cd st).1.store.comments := by
  unfold commentBody
  cases aiAnalyze env cd.text with
  | error e => exact storeEvolves_refl _
  | ok a =>
      by_cases hp : decideStatus cfg a.toxicity_score = ModerationStatus.published
      · cases env.saveFails cd.id with
        | some e =>
            simp only [hp]
            exact storeEvolves_refl _
        | none =>
            simp only [hp]
            exact storeEvolves_upsert _ _
      · cases hm : env.moderateFails cd.id with
        | some e =>
            simp only [if_neg hp, hm]
            exact storeEvolves_refl _
        | none =>
            cases env.saveFails cd.id with
            | some e =>
                simp only [if_neg hp, hm]
                exact storeEvolves_refl _
            | none =>
                simp only [if_neg hp, hm]
                exact storeEvolves_upsert _ _

theorem processComment_evolves (cfg : Config) (env : Env) (vid : String)
    (cd : CommentData) (st : PipeState) :
    StoreEvolves st.store.comments (processComment cfg env vid cd st).1.store.comments := by
  unfold processComment
  cases comment_exists env st cd.id with
  | error e => exact storeEvolves_refl _
  | ok b =>
      cases b with
      | true => exact storeEvolves_refl _
      | false =>
          have h := commentBody_evolves cfg env vid cd st
          cases hb : commentBody cfg env vid cd st with
          | mk st2 err =>
              rw [hb] at h
              cases err with
              | none => exact h
              | some e => exact h

theorem processCommentList_evolves (cfg : Config) (env : Env) (vid : String)
    (cds : List CommentData) (st : PipeState) :
    StoreEvolves st.store.comments
      (processCommentList cfg env vid cds st).1.store.comments := by
  induction cds generalizing st with
  | nil => exact storeEvolves_refl _
  | cons cd rest ih =>
      have h1 := processComment_evolves cfg env vid cd st
      unfold processCommentList
      cases hp : processComment cfg env vid cd st with
      | mk st2 err =>
          rw [hp] at h1
          cases err with
          | some e => exact h1
          | none => exact storeEvolves_trans h1 (ih st2)

theorem processVideoList_evolves (cfg : Config) (env : Env)
    (vs : List Video) (st : PipeState) :
    StoreEvolves st.store.comments
      (processVideoList cfg env vs st).1.store.comments := by
  induction vs generalizing st with
  | nil => exact storeEvolves_refl _
  | cons v rest ih =>
      have h1 : StoreEvolves st.store.comments
          (processVideo cfg env v st).1.store.comments := by
        unfold processVideo
        cases env.fetchComments v.video_id with
        | error e => exact storeEvolves_refl _
        | ok cds => exact processCommentList_evolves cfg env v.video_id cds st
      unfold processVideoList
      cases hp : processVideo cfg env v st with
      | mk st2 err =>
          rw [hp] at h1
          cases err with
          | some e => exact h1
          | none => exact storeEvolves_trans h1 (ih st2)

theorem pipelineBody_evolves (cfg : Config) (env : Env) (st : PipeState) :
    StoreEvolves st.store.comments
      (pipelineBody cfg env st).1.store.comments := by
  unfold pipelineBody
  split
  · exact storeEvolves_refl _
  · rename_i videos heq
    have hv := processVideoList_evolves cfg env videos st
    split
    · rename_i st2 e heq2
      rw [heq2] at hv
      exact hv
    · rename_i st2 heq2
      rw [heq2] at hv
      split
      · exact hv
      · exact hv

theorem process_comments_evolves (cfg : Config) (env : Env) (s : Store) :
    StoreEvolves s.comments (process_comments cfg env s).store.comments := by
  have h := pipelineBody_evolves cfg env (initState s)
  unfold process_comments
  split
  · rename_i st2 heq
    rw [heq] at h
    exact h
  · rename_i st2 e heq
    rw [heq] at h
    exact h

/-- C6: processing is idempotent per comment id.  A comment whose id is
already in the record store is skipped silently — no classification, no
moderation call, no save, no error entry, the state is returned unchanged;
a batch run keeps document ids unique and never drops an id; hence running
the pipeline a second time over the store produced by a first run leaves
exactly one persisted record for each id the first run persisted. -/
theorem c6_idempotent_dedup (cfg : Config) (env : Env) (vid : String)
    (cd : CommentData) (st : PipeState) (s0 : Store) (i : String)
    (hex : env.existsFails cd.id = none) :
    (storeHas st.store.comments cd.id = true →
        processComment cfg env vid cd st = (st, none)) ∧
    ((idsOf s0.comments).Nodup →
        (idsOf (process_comments cfg env s0).store.comments).Nodup) ∧
    (∀ j, j ∈ idsOf s0.comments →
        j ∈ idsOf (process_comments cfg env s0).store.comments) ∧
    ((idsOf s0.comments).Nodup →
      i ∈ idsOf (process_comments cfg env s0).store.comments →
        (idsOf ((process_comments cfg env
            (process_comments cfg env s0).store).store.comments)).count i = 1) := by
  refine ⟨?_, (process_comments_evolves cfg env s0).1,
    (process_comments_evolves cfg env s0).2, ?_⟩
  · intro hhas
    unfold processComment comment_exists
    rw [hex, hhas]
  · intro hnd hmem
    have h2 := process_comments_evolves cfg env (process_comments cfg env s0).store
    exact List.count_eq_one_of_mem (h2.1 ((process_comments_evolves cfg env s0).1 hnd))
      (h2.2 i hmem)

/-- A batch state whose store already holds a record with id `"cA"`. -/
def savedState : PipeState :=
  initState (process_comments defaultCfg okEnv emptyStore).store

/-- Witness for C6: the comment `"cA"` persisted by a first `okEnv` run is
skipped by a second run, the run keeps ids unique, and after the second run
exactly one record with id `"cA"` is stored. -/
theorem c6_idempotent_dedup_witness :
    processComment defaultCfg okEnv "v1" sampleCd savedState = (savedState, none) ∧
    (idsOf ((process_comments defaultCfg okEnv
        (process_comments defaultCfg okEnv emptyStore).store).store.comments)).count "cA" = 1 :=
  ⟨(c6_idempotent_dedup defaultCfg okEnv "v1" sampleCd savedState emptyStore "cA" rfl).1
      (by decide),
   (c6_idempotent_dedup defaultCfg okEnv "v1" sampleCd savedState emptyStore "cA" rfl).2.2.2
      (by decide) (by decide)⟩

/-- C7: toxic-category content is never exposed.  Every request to the
category-read endpoint for the toxic category is rejected outright with an
HTTP 400 error — no comment data is returned — and the reply-suggestion
service returns nothing for a toxic-category comment, whatever the model
call would answer. -/
theorem c7_toxic_never_exposed (cfg : Config) (comments : List Comment)
    (limit : Nat) (modelReply : Except String String) :
    get_comments_by_category_endpoint cfg comments CommentCategory.toxic limit
      = Except.error
          (400, "Toxic comments are not viewable. Check stats for count only.") ∧
    generate_reply_suggestion CommentCategory.toxic modelReply = none := by
  constructor
  · rfl
  · rfl

/-- C8: replying to a comment id absent from the record store returns a 404
not-found outcome, and no call is issued to the Sink — nothing is posted to
the remote service and the store is not marked replied. -/
theorem c8_reply_not_found (env : ReplyEnv) (cid text : String)
    (habs : fs_get_comment env.comments cid = none) :
    reply_to_comment env cid text
      = (Except.error (404, "Comment not found"), []) := by
  unfold reply_to_comment
  rw [habs]

/-- Witness for C8: replying against an empty record store. -/
theorem c8_reply_not_found_witness :
    reply_to_comment
        { comments := [], credentials := some "cred"
        , postReplyResult := Except.ok "rid", markRepliedFails := none }
        "missing" "thanks"
      = (Except.error (404, "Comment not found"), []) :=
  c8_reply_not_found
    { comments := [], credentials := some "cred"
    , postReplyResult := Except.ok "rid", markRepliedFails := none }
    "missing" "thanks" rfl

/-- C9: the existence check sits outside the per-comment `try`, so its
exception is not isolated.  If `comment_exists` raises for a comment, that
iteration returns the state unchanged with the exception propagating, the
comment loop abandons every remaining comment, and — when this happens on
the first comment of the first video — the batch returns immediately with
the store untouched (in particular the daily aggregate is not incremented),
no events issued, and the single top-level error string. -/
theorem c9_exists_check_aborts (cfg : Config) (env : Env) (vid : String)
    (cd : CommentData) (rest : List CommentData) (st : PipeState)
    (v : Video) (vs : List Video) (s0 : Store) (e : String)
    (hfail : env.existsFails cd.id = some e) :
    processComment cfg env vid cd st = (st, some e) ∧
    processCommentList cfg env vid (cd :: rest) st = (st, some e) ∧
    (env.fetchVideos = Except.ok (v :: vs) →
      env.fetchComments v.video_id = Except.ok (cd :: rest) →
        process_comments cfg env s0 =
          { store := s0
          , result := { processed_count := 0, hidden_count := 0, held_count := 0
                      , errors := ["Processing job failed: " ++ e] }
          , events := [] }) := by
  have h1 : ∀ (vid' : String) (st' : PipeState),
      processComment cfg env vid' cd st' = (st', some e) := by
    intro vid' st'
    unfold processComment comment_exists
    rw [hfail]
  have h2 : ∀ (vid' : String) (st' : PipeState),
      processCommentList cfg env vid' (cd :: rest) st' = (st', some e) := by
    intro vid' st'
    conv_lhs => unfold processCommentList
    rw [h1 vid' st']
  refine ⟨h1 vid st, h2 vid st, ?_⟩
  intro hv hc
  unfold process_comments pipelineBody processVideoList processVideo
  simp [hv, hc, h2]
  exact ⟨rfl, ⟨rfl, rfl, rfl, rfl⟩, rfl⟩

/-- The environment of `okEnv` with a Firestore whose existence check
raises. -/
def existsFailEnv : Env :=
  { okEnv with existsFails := fun _ => some "firestore unavailable" }

/-- Witness for C9: with the failing existence check, one iteration aborts
with the exception and the whole batch returns the single top-level error
with untouched store and no events. -/
theorem c9_exists_check_aborts_witness :
    processComment defaultCfg existsFailEnv "v1" sampleCd (initState emptyStore)
      = (initState emptyStore, some "firestore unavailable") ∧
    process_comments defaultCfg existsFailEnv emptyStore =
      { store := emptyStore
      , result := { processed_count := 0, hidden_count := 0, held_count := 0
                  , errors := ["Processing job failed: " ++ "firestore unavailable"] }
      , events := [] } :=
  ⟨(c9_exists_check_aborts defaultCfg existsFailEnv "v1" sampleCd []
      (initState emptyStore) { video_id := "v1" } [] emptyStore
      "firestore unavailable" rfl).1,
   (c9_exists_check_aborts defaultCfg existsFailEnv "v1" sampleCd []
      (initState emptyStore) { video_id := "v1" } [] emptyStore
      "firestore unavailable" rfl).2.2 rfl rfl⟩

theorem mem_insertByPublishedDesc {a c : Comment} {l : List Comment}
    (h : a ∈ insertByPublishedDesc c l) : a = c ∨ a ∈ l := by
  induction l with
  | nil =>
      simp [insertByPublishedDesc] at h
      exact Or.inl h
  | cons x xs ih =>
      unfold insertByPublishedDesc at h
      by_cases hc : c.published_at ≤ x.published_at
      · rw [if_pos hc] at h
        rcases List.mem_cons.mp h with hx | hrest
        · exact Or.inr (List.mem_cons.mpr (Or.inl hx))
        · rcases ih hrest with h1 | h2
          · exact Or.inl h1
          · exact Or.inr (List.mem_cons.mpr (Or.inr h2))
      · rw [if_neg hc] at h
        rcases List.mem_cons.mp h with hx | hrest
        · exact Or.inl hx
        · exact Or.inr hrest

theorem mem_sortByPublishedDesc {a : Comment} {l : List Comment}
    (h : a ∈ sortByPublishedDesc l) : a ∈ l := by
  induction l with
  | nil =>
      simp [sortByPublishedDesc] at h
  | cons x xs ih =>
      unfold sortByPublishedDesc at h
      rcases mem_insertByPublishedDesc h with h1 | h2
      · exact List.mem_cons.mpr (Or.inl h1)
      · exact List.mem_cons.mpr (Or.inr (ih h2))

/-- Blank out the one field the summaries must not depend on. -/
def eraseOriginalText (c : Comment) : Comment := { c with original_text := "" }

theorem insertByPublishedDesc_map_erase (c : Comment) (l : List Comment) :
    insertByPublishedDesc (eraseOriginalText c) (l.map eraseOriginalText)
      = (insertByPublishedDesc c l).map eraseOriginalText := by
  induction l with
  | nil => rfl
  | cons x xs ih =>
      simp only [List.map_cons]
      unfold insertByPublishedDesc
      simp only [eraseOriginalText]
      by_cases h : c.published_at ≤ x.published_at
      · rw [if_pos h, if_pos h]
        simp only [List.map_cons]
        rw [← ih]
        rfl
      · rw [if_neg h, if_neg h]
        rfl

theorem sortByPublishedDesc_map_erase (l : List Comment) :
    sortByPublishedDesc (l.map eraseOriginalText)
      = (sortByPublishedDesc l).map eraseOriginalText := by
  induction l with
  | nil => rfl
  | cons x xs ih =>
      simp only [List.map_cons]
      unfold sortByPublishedDesc
      rw [ih, insertByPublishedDesc_map_erase]

theorem filter_map_erase (p : Comment → Bool)
    (hp : ∀ c, p (eraseOriginalText c) = p c) (l : List Comment) :
    (l.map eraseOriginalText).filter p = (l.filter p).map eraseOriginalText := by
  induction l with
  | nil => rfl
  | cons x xs ih =>
      simp only [List.map_cons, List.filter_cons, hp x]
      by_cases h : p x = true
      · simp [h, ih]
      · simp [h, ih]

theorem map_summarize_erase (l : List Comment) :
    (l.map eraseOriginalText).map summarize = l.map summarize := by
  rw [List.map_map]
  exact List.map_congr_left fun x _ => rfl

/-- The read path's output does not depend on `original_text`: blanking the
field in every stored record leaves the returned summaries unchanged, for
either value of `exclude_toxic`. -/
theorem fs_get_comments_by_category_erase (cfg : Config) (comments : List Comment)
    (category : CommentCategory) (limit : Nat) (et : Bool) :
    fs_get_comments_by_category cfg (comments.map eraseOriginalText) category limit et
      = fs_get_comments_by_category cfg comments category limit et := by
  unfold fs_get_comments_by_category
  cases et with
  | false =>
      simp only [Bool.false_eq_true, if_false]
      rw [filter_map_erase (fun c => decide (c.category = category)) (fun c => rfl) comments,
        sortByPublishedDesc_map_erase, ← List.map_take, map_summarize_erase]
  | true =>
      simp only [if_true]
      rw [filter_map_erase (fun c => decide (c.category = category)) (fun c => rfl) comments,
        filter_map_erase (fun c => decide (c.toxicity_score < cfg.toxicity_threshold)) (fun c => rfl),
        sortByPublishedDesc_map_erase, ← List.map_take, map_summarize_erase]

/-- C10: every item the category-read path returns is a `CommentSummary`
built by `summarize`, which exposes the mild rewritten text only — the
output is unchanged if every stored record's `original_text` is blanked —
and under the `exclude_toxic` default used by the read endpoints every
returned summary comes from a stored record with
`toxicity_score < toxicity_threshold`; for a non-toxic category the
endpoint answers exactly this default read. -/
theorem c10_read_path_safe (cfg : Config) (comments : List Comment)
    (category : CommentCategory) (limit : Nat) :
    (∀ s ∈ fs_get_comments_by_category cfg comments category limit true,
        ∃ c ∈ comments, s = summarize c ∧ s.mild_text = c.mild_text ∧
          c.toxicity_score < cfg.toxicity_threshold) ∧
    (fs_get_comments_by_category cfg (comments.map eraseOriginalText)
        category limit true
      = fs_get_comments_by_category cfg comments category limit true) ∧
    (category ≠ CommentCategory.toxic →
        get_comments_by_category_endpoint cfg comments category limit
          = Except.ok (fs_get_comments_by_category cfg comments category limit true)) := by
  refine ⟨?_, fs_get_comments_by_category_erase cfg comments category limit true, ?_⟩
  · intro s hs
    unfold fs_get_comments_by_category at hs
    rcases List.mem_map.mp hs with ⟨c, hc, rfl⟩
    have hc2 := mem_sortByPublishedDesc (List.take_subset _ _ hc)
    have hc3 := List.mem_filter.mp hc2
    have hc4 := List.mem_filter.mp hc3.1
    exact ⟨c, hc4.1, rfl, rfl, of_decide_eq_true hc3.2⟩
  · intro hne
    unfold get_comments_by_category_endpoint
    rw [if_neg hne]

/-- A persisted record used to exercise the read path. -/
def sampleRecord : Comment :=
  { id := "cA", video_id := "v1", author_name := "a", author_channel_id := "ca"
  , original_text := "great", mild_text := "great"
  , category := CommentCategory.positive, toxicity_score := 20
  , moderation_status := ModerationStatus.published
  , published_at := 1, analyzed_at := 0, needs_reply := false }

/-- Witness for C10: reading the positive category from a one-record store
yields that record's summary, whose source has score below the threshold,
and the endpoint performs exactly the default read. -/
theorem c10_read_path_safe_witness :
    (∃ c ∈ [sampleRecord], summarize sampleRecord = summarize c ∧
        (summarize sampleRecord).mild_text = c.mild_text ∧
        c.toxicity_score < defaultCfg.toxicity_threshold) ∧
    get_comments_by_category_endpoint defaultCfg [sampleRecord]
        CommentCategory.positive 50
      = Except.ok (fs_get_comments_by_category defaultCfg [sampleRecord]
          CommentCategory.positive 50 true) :=
  ⟨(c10_read_path_safe defaultCfg [sampleRecord] CommentCategory.positive 50).1
      (summarize sampleRecord) (by decide),
   (c10_read_path_safe defaultCfg [sampleRecord] CommentCategory.positive 50).2.2
      (by decide)⟩

end YTGuard
